import Mathlib

/-!
Verification of the JWT verification and authorization engine of the
kong-api-gateway-poc repository, shallowly embedded in Lean 4.

The embedded code:
  - services/auth-service/app.py : get_public_keys, verify_jwt_token,
    is_authorized
  - kong/helm-chart/python-plugins/custom-jwt-auth.py : Plugin._validate_jwt,
    Plugin._get_public_key_from_jwks, Plugin._base64url_decode
  - kong/helm-chart/python-plugins/custom-auth-pre-function.py :
    Plugin.access, Plugin._call_auth_service, Plugin._make_http_request

Modelling conventions:
  - JWT tokens are represented after segment/base64/JSON parsing: a Token is
    either malformed (the header cannot be decoded) or a parsed header and
    payload together with an opaque signature-validity predicate over public
    keys, standing for the RSA signature check the cryptography backend
    performs.
  - Network I/O is passed in as an explicit fetch outcome argument; the
    returned Bool flags record whether a network call was issued and whether
    a signature verification was performed.
  - Python dicts keyed by strings become association lists whose insert
    overwrites an existing binding, as dict assignment does.
  - Python falsiness of strings, dicts and None is modelled explicitly at
    each use site.
-/

namespace KongPoc

/-- Python substring test over lists of characters: true when the first list
occurs contiguously inside the second. -/
def startsWithSeq : List Char → List Char → Bool
  | [], _ => true
  | _ :: _, [] => false
  | a :: as, b :: bs => a == b && startsWithSeq as bs

/-- Helper for pyIn: scan every suffix of the haystack. -/
def hasSubSeq (needle : List Char) : List Char → Bool
  | [] => startsWithSeq needle []
  | c :: t => startsWithSeq needle (c :: t) || hasSubSeq needle t

/-- The Python expression needle in hay on strings. -/
def pyIn (needle hay : String) : Bool :=
  hasSubSeq needle.toList hay.toList

/-- The decoded JWT payload fields the system reads.  realmRoles is
payload realm_access.roles; none stands for an absent realm_access or an
absent roles entry (the code defaults both to empty). aud is none when the
payload has no aud claim; a single-string aud is the singleton list. -/
structure Payload where
  sub : Option String := none
  iss : Option String := none
  aud : Option (List String) := none
  exp : Option Int := none
  iat : Option Int := none
  nbf : Option Int := none
  clientId : Option String := none
  preferredUsername : Option String := none
  email : Option String := none
  realmRoles : Option (List String) := none
deriving Repr, DecidableEq

/-- is_authorized from services/auth-service/app.py (lines 328..379):
role-based decision from the decoded token, request path and method.
Path matching is the Python substring operator in. -/
def is_authorized (decoded_token : Payload) (api_path method : String) : Bool :=
  let roles := decoded_token.realmRoles.getD []
  if pyIn "/orders" api_path then
    if method == "GET" then roles.contains "offline_access"
    else if method == "POST" then roles.contains "uma_authorization"
    else if method == "PUT" || method == "DELETE" then roles.contains "default-roles-kong"
    else decide (0 < roles.length)
  else if pyIn "/inventory" api_path then
    if method == "GET" then true
    else if method == "PUT" || method == "POST" || method == "DELETE" then
      roles.contains "uma_authorization"
    else decide (0 < roles.length)
  else decide (0 < roles.length)

/-! ## JWKS keys and base64url decoding -/

/-- One JWK object of a JWKS response (section 6 of the spec: objects with
kid, kty, use, n, e, alg fields, each possibly absent). -/
structure JwkKey where
  kid : Option String := none
  kty : Option String := none
  use : Option String := none
  alg : Option String := none
  n : Option String := none
  e : Option String := none
deriving Repr, DecidableEq

/-- A parsed JWKS response body: a keys array of JWK objects. -/
structure Jwks where
  keys : List JwkKey
deriving Repr, DecidableEq

/-- An RSA public key as reconstructed from a JWK: the big-endian integers
decoded from the n and e fields.  The cryptography backend object is
represented by its public numbers. -/
structure PublicKey where
  n : Nat
  e : Nat
deriving Repr, DecidableEq

/-- Value of one base64url alphabet character (A-Z a-z 0-9 - and
underscore); none for a character outside the alphabet. -/
def b64Val (c : Char) : Option Nat :=
  if 'A' ≤ c && c ≤ 'Z' then some (c.toNat - 'A'.toNat)
  else if 'a' ≤ c && c ≤ 'z' then some (c.toNat - 'a'.toNat + 26)
  else if '0' ≤ c && c ≤ '9' then some (c.toNat - '0'.toNat + 52)
  else if c == '-' then some 62
  else if c == '_' then some 63
  else none

/-- Decode one padded base64 quantum of four characters into bytes. -/
def b64Group (a b c d : Char) : Option (List Nat) :=
  match b64Val a, b64Val b with
  | some va, some vb =>
    if c == '=' && d == '=' then
      some [va * 4 + vb / 16]
    else
      match b64Val c with
      | some vc =>
        if d == '=' then
          some [va * 4 + vb / 16, (vb % 16) * 16 + vc / 4]
        else
          match b64Val d with
          | some vd => some [va * 4 + vb / 16, (vb % 16) * 16 + vc / 4, (vc % 4) * 64 + vd]
          | none => none
      | none => none
  | _, _ => none

/-- Decode a padded base64url character sequence, four characters at a time.
A quantum containing padding must be the last one; a length not a multiple
of four or a character outside the alphabet fails, as
base64.urlsafe_b64decode raises for malformed input. -/
def b64Quanta : List Char → Option (List Nat)
  | [] => some []
  | a :: b :: c :: d :: rest =>
    match b64Group a b c d with
    | some bytes =>
      if (c == '=' || d == '=') && !rest.isEmpty then none
      else
        match b64Quanta rest with
        | some more => some (bytes ++ more)
        | none => none
    | none => none
  | _ => none

/-- Plugin._base64url_decode from custom-jwt-auth.py (lines 304..313): pad
the input to a multiple of four with = and base64url-decode it, returning
the byte sequence. -/
def base64url_decode (data : String) : Option (List Nat) :=
  let padding := 4 - data.length % 4
  let padded := if padding != 4 then data ++ String.mk (List.replicate padding '=') else data
  b64Quanta padded.toList

/-- int.from_bytes with byteorder big: fold the bytes most significant
first. -/
def bytesToNat (bytes : List Nat) : Nat :=
  bytes.foldl (fun acc b => acc * 256 + b) 0

/-! ## auth-service key cache (get_public_keys) -/

/-- The kid-keyed dictionary of reconstructed public keys the auth service
caches. -/
def KeyMap := List (String × PublicKey)
deriving Repr, DecidableEq

instance : Inhabited KeyMap := ⟨([] : List (String × PublicKey))⟩

/-- Dict assignment keys[kid] = value: overwrite an existing binding for the
key, else append. -/
def insertKey (m : KeyMap) (kid : String) (pk : PublicKey) : KeyMap :=
  match m with
  | ([] : List (String × PublicKey)) => [(kid, pk)]
  | (k, v) :: rest => if k == kid then (k, pk) :: rest else (k, v) :: insertKey rest kid pk

/-- Dict lookup in a KeyMap. -/
def lookupKey (m : KeyMap) (kid : String) : Option PublicKey :=
  match m with
  | ([] : List (String × PublicKey)) => none
  | (k, v) :: rest => if k == kid then some v else lookupKey rest kid

/-- jwt.algorithms.RSAAlgorithm.from_jwk on one JWK object: requires RSA key
type and decodable n and e components, yielding the public numbers; none
models the InvalidKeyError or decode exception pyjwt raises otherwise. -/
def from_jwk (k : JwkKey) : Option PublicKey :=
  if k.kty != some "RSA" then none
  else
    match k.n, k.e with
    | some n, some e =>
      match base64url_decode n, base64url_decode e with
      | some nb, some eb => some { n := bytesToNat nb, e := bytesToNat eb }
      | _, _ => none
    | _, _ => none

/-- The key-processing loop of get_public_keys (app.py lines 63..75): keys
with a falsy kid are skipped; from_jwk is called on the rest, and any
exception it raises aborts the whole refresh (the loop body sits inside the
surrounding try), which none models. -/
def buildKeys (acc : KeyMap) : List JwkKey → Option KeyMap
  | [] => some acc
  | k :: rest =>
    match k.kid with
    | none => buildKeys acc rest
    | some kid =>
      if kid == "" then buildKeys acc rest
      else
        match from_jwk k with
        | none => none
        | some pk => buildKeys (insertKey acc kid pk) rest

/-- The auth-service module state: the public_keys_cache and cache_expiry
globals of app.py. -/
structure AuthCache where
  cache : KeyMap := ([] : List (String × PublicKey))
  expiry : Option Int := none
deriving Repr, DecidableEq

/-- Outcome of one JWKS endpoint fetch as seen by get_public_keys: a parsed
body, or any exception out of requests.get, raise_for_status,
response.json or key processing. -/
inductive FetchOutcome
  | ok (j : Jwks)
  | failed
deriving Repr, DecidableEq

/-- The cache-hit test of get_public_keys (app.py line 46): cache_expiry
truthy (present and nonzero), current time before it, and a nonempty
cached dict. -/
def authCacheHit (st : AuthCache) (now : Int) : Bool :=
  match st.expiry with
  | none => false
  | some e => e != 0 && now < e && !st.cache.isEmpty

/-- get_public_keys from app.py (lines 38..96).  Returns the key dict the
caller sees, the updated module state, and whether a network fetch was
issued.  On a fetch or key-processing failure the stale cache (possibly
empty) is returned unchanged, per the except branch. -/
def get_public_keys (st : AuthCache) (now : Int) (fetch : FetchOutcome) :
    KeyMap × AuthCache × Bool :=
  if authCacheHit st now then (st.cache, st, false)
  else
    match fetch with
    | .failed => (st.cache, st, true)
    | .ok jwks =>
      match buildKeys ([] : List (String × PublicKey)) jwks.keys with
      | none => (st.cache, st, true)
      | some keys => (keys, { cache := keys, expiry := some (now + 3600) }, true)

/-! ## Tokens and pyjwt claim validation -/

/-- The unverified JWT header fields the code reads. -/
structure Header where
  kid : Option String := none
  alg : Option String := none
  typ : Option String := none
deriving Repr, DecidableEq

/-- A presented JWT after structural parsing: malformed when
get_unverified_header raises (wrong segment count, bad base64 or JSON),
else the header, the payload, and the signature-validity predicate the RSA
backend computes for the header plus payload bytes against a public key. -/
inductive Token
  | malformed
  | parsed (header : Header) (payload : Payload) (sigOk : PublicKey → Bool)

/-- The distinct exceptions out of pyjwt.decode that the two call sites can
observe. -/
inductive JwtError
  | invalidAlgorithm
  | invalidSignature
  | missingRequiredClaim (c : String)
  | immatureSignature
  | expiredSignature
  | invalidIssuer
  | invalidAudience
deriving Repr, DecidableEq

/-- The audience step of pyjwt claim validation: the aud claim must be
present and contain the expected audience. -/
def pyjwtAudCheck (audience : String) (p : Payload) : Except JwtError Payload × Bool :=
  match p.aud with
  | none => (.error (.missingRequiredClaim "aud"), true)
  | some auds =>
    if auds.contains audience then (.ok p, true)
    else (.error .invalidAudience, true)

/-- pyjwt.decode with algorithms ['RS256'], as called by both
verify_jwt_token (audience account, no issuer) and Plugin._validate_jwt
(issuer and audience from config, exp and iat required).  Order follows
pyjwt: the algorithm allowlist, then the signature, then claim validation
(required claims, iat, nbf, exp, iss, aud). The second component records
whether the signature was verified. -/
def pyjwt_decode (issuer : Option String) (audience : String)
    (requireExp requireIat : Bool) (key : PublicKey)
    (h : Header) (p : Payload) (sigOk : PublicKey → Bool) (now : Int) :
    Except JwtError Payload × Bool :=
  match h.alg with
  | none => (.error .invalidAlgorithm, false)
  | some a =>
    if a != "RS256" then (.error .invalidAlgorithm, false)
    else if !sigOk key then (.error .invalidSignature, true)
    else if requireExp && p.exp.isNone then (.error (.missingRequiredClaim "exp"), true)
    else if requireIat && p.iat.isNone then (.error (.missingRequiredClaim "iat"), true)
    else if (match p.iat with | some i => decide (now < i) | none => false) then
      (.error .immatureSignature, true)
    else if (match p.nbf with | some nb => decide (now < nb) | none => false) then
      (.error .immatureSignature, true)
    else if (match p.exp with | some x => decide (x ≤ now) | none => false) then
      (.error .expiredSignature, true)
    else
      match issuer with
      | some iss =>
        match p.iss with
        | none => (.error (.missingRequiredClaim "iss"), true)
        | some pi =>
          if pi != iss then (.error .invalidIssuer, true)
          else pyjwtAudCheck audience p
      | none => pyjwtAudCheck audience p

/-! ## auth-service verify_jwt_token -/

/-- The expected issuer string literal of app.py line 145 (defined by
verify_jwt_token but not passed to jwt.decode there). -/
def expected_issuer : String := "http://d1df8d9f5a76.ngrok-free.app/realms/kong"

/-- verify_jwt_token from app.py (lines 98..190).  The Bearer-prefix strip
and segment logging act on the raw string and are absorbed by the Token
representation.  Output: the decoded claims (None on any failure, as every
except branch returns None), the updated cache state, whether a JWKS fetch
was issued, and whether a signature verification was performed.  The
jwt.decode call passes audience account and algorithms RS256; the issuer
keyword is commented out in the source, so no issuer check runs. -/
def verify_jwt_token (st : AuthCache) (now : Int) (fetch : FetchOutcome)
    (tok : Token) : Option Payload × AuthCache × Bool × Bool :=
  match tok with
  | .malformed => (none, st, false, false)
  | .parsed h p sigOk =>
    match h.kid with
    | none => (none, st, false, false)
    | some kid =>
      if kid == "" then (none, st, false, false)
      else
        let r := get_public_keys st now fetch
        match lookupKey r.1 kid with
        | none => (none, r.2.1, r.2.2, false)
        | some pk =>
          let d := pyjwt_decode none "account" false false pk h p sigOk now
          match d.1 with
          | .ok payload => (some payload, r.2.1, r.2.2, d.2)
          | .error _ => (none, r.2.1, r.2.2, d.2)

/-! ## Gateway plugin: custom-jwt-auth.py -/

/-- The custom-jwt-auth plugin configuration after schema defaults
(cache_ttl 3600, ssl_verify false). -/
structure PluginConfig where
  keycloak_base_url : String
  keycloak_realm : String
  expected_issuer : String
  expected_audience : String
  cache_ttl : Int := 3600
  ssl_verify : Bool := false
deriving Repr, DecidableEq

/-- The plugin instance state: the jwks_cache dict keyed by cache key, and
the single shared cache_expiry scalar (initialized to 0). -/
structure PluginCache where
  jwks_cache : List (String × Jwks) := []
  cache_expiry : Int := 0
deriving Repr, DecidableEq

/-- Dict lookup in the jwks_cache. -/
def lookupJwks (m : List (String × Jwks)) (ck : String) : Option Jwks :=
  match m with
  | [] => none
  | (k, v) :: rest => if k == ck then some v else lookupJwks rest ck

/-- Dict assignment into the jwks_cache: overwrite or append. -/
def insertJwks (m : List (String × Jwks)) (ck : String) (j : Jwks) :
    List (String × Jwks) :=
  match m with
  | [] => [(ck, j)]
  | (k, v) :: rest => if k == ck then (k, j) :: rest else (k, v) :: insertJwks rest ck j

/-- Outcome of one plugin JWKS fetch: a parsed body, a
requests.RequestException, or a json.JSONDecodeError from response.json. -/
inductive PluginFetch
  | ok (j : Jwks)
  | requestFailed
  | badJson
deriving Repr, DecidableEq

/-- The distinct error returns of Plugin._get_public_key_from_jwks, one per
return site of the source. -/
inductive JwksError
  | fetchRequestFailed
  | fetchBadJson
  | keyNotFound (kid : String)
  | unsupportedKeyType (kty : Option String)
  | keyNotForSig (use : Option String)
  | missingComponents
  | constructionFailed
deriving Repr, DecidableEq

/-- The cache_key string of Plugin._get_public_key_from_jwks line 234. -/
def pluginCacheKey (cfg : PluginConfig) : String :=
  cfg.keycloak_base_url ++ "/" ++ cfg.keycloak_realm

/-- The cache-or-fetch step of Plugin._get_public_key_from_jwks (lines
231..255): serve the cached JWKS when the cache key is present and the time
is before the shared expiry, else fetch; a successful fetch is cached and
resets the expiry, a failed fetch is a hard error (the stale cache entry is
not consulted).  Returns the JWKS to use, the new state and whether a fetch
was issued. -/
def pluginGetJwks (cfg : PluginConfig) (st : PluginCache) (now : Int)
    (fetch : PluginFetch) : Except JwksError (Jwks × PluginCache × Bool) :=
  let ck := pluginCacheKey cfg
  let doFetch : Except JwksError (Jwks × PluginCache × Bool) :=
    match fetch with
    | .ok j =>
      .ok (j, { jwks_cache := insertJwks st.jwks_cache ck j,
                cache_expiry := now + cfg.cache_ttl }, true)
    | .requestFailed => .error .fetchRequestFailed
    | .badJson => .error .fetchBadJson
  match lookupJwks st.jwks_cache ck with
  | some j => if now < st.cache_expiry then .ok (j, st, false) else doFetch
  | none => doFetch

/-- Plugin._get_public_key_from_jwks (lines 226..302): resolve the JWKS
(cached or fetched), find the key with the requested kid, validate its
properties and reconstruct the RSA public numbers.  Second and third
components: resulting state and whether a network fetch was issued. -/
def get_public_key_from_jwks (cfg : PluginConfig) (st : PluginCache) (now : Int)
    (fetch : PluginFetch) (kid : String) :
    Except JwksError PublicKey × PluginCache × Bool :=
  match pluginGetJwks cfg st now fetch with
  | .error err => (.error err, st, true)
  | .ok (jwks, st', fetched) =>
    match jwks.keys.find? (fun k => k.kid == some kid) with
    | none => (.error (.keyNotFound kid), st', fetched)
    | some key =>
      if key.kty != some "RSA" then (.error (.unsupportedKeyType key.kty), st', fetched)
      else if !(key.use == some "sig" || key.use == none) then
        (.error (.keyNotForSig key.use), st', fetched)
      else
        match key.n, key.e with
        | some n, some e =>
          if n == "" || e == "" then (.error .missingComponents, st', fetched)
          else
            match base64url_decode n, base64url_decode e with
            | some nb, some eb =>
              (.ok { n := bytesToNat nb, e := bytesToNat eb }, st', fetched)
            | _, _ => (.error .constructionFailed, st', fetched)
        | _, _ => (.error .missingComponents, st', fetched)

/-- The distinct failure returns of Plugin._validate_jwt, one per return
site.  The source formats these as message strings; the except-clause order
there routes every pyjwt.InvalidTokenError subclass other than
ExpiredSignatureError through the generic Invalid token message, which
invalidToken carries. -/
inductive ValidateError
  | invalidHeader
  | unsupportedAlgorithm (alg : String)
  | missingKid
  | keyLookup (e : JwksError)
  | tokenExpired
  | invalidToken (e : JwtError)
deriving Repr, DecidableEq

/-- Plugin._validate_jwt (lines 157..224): header checks (alg with default
RS256, then kid), key resolution through the JWKS cache, then pyjwt.decode
with the configured issuer and audience and exp and iat required.  Output:
the validation outcome, the resulting cache state, whether a JWKS fetch was
issued and whether a signature verification was performed. -/
def validate_jwt (cfg : PluginConfig) (st : PluginCache) (now : Int)
    (fetch : PluginFetch) (tok : Token) :
    Except ValidateError Payload × PluginCache × Bool × Bool :=
  match tok with
  | .malformed => (.error .invalidHeader, st, false, false)
  | .parsed h p sigOk =>
    let alg := h.alg.getD "RS256"
    if alg != "RS256" then (.error (.unsupportedAlgorithm alg), st, false, false)
    else
      match h.kid with
      | none => (.error .missingKid, st, false, false)
      | some kid =>
        if kid == "" then (.error .missingKid, st, false, false)
        else
          let r := get_public_key_from_jwks cfg st now fetch kid
          match r.1 with
          | .error err => (.error (.keyLookup err), r.2.1, r.2.2, false)
          | .ok pk =>
            let d := pyjwt_decode (some cfg.expected_issuer) cfg.expected_audience
              true true pk h p sigOk now
            match d.1 with
            | .ok payload => (.ok payload, r.2.1, r.2.2, d.2)
            | .error .expiredSignature => (.error .tokenExpired, r.2.1, r.2.2, d.2)
            | .error err => (.error (.invalidToken err), r.2.1, r.2.2, d.2)

/-! ## Gateway plugin: custom-auth-pre-function.py -/

/-- A successful auth-service response body (section 6 of the spec). -/
structure RemoteResp where
  authorized : Bool := false
  user_id : Option String := none
  enterprise_id : Option String := none
  client_id : Option String := none
  username : Option String := none
  roles : Option (List String) := none
deriving Repr, DecidableEq

/-- What one iteration of the Plugin._make_http_request loop observes from
urllib.  response carries the status urlopen returned together with the
parsed JSON body when the body parses (urlopen raises HTTPError for
statuses of 400 and above, so an error status arrives as httpError);
urlError is urllib.error.URLError (connection failure, timeout); otherExn
is any other exception, including a json.loads failure on a 200 body. -/
inductive Attempt
  | response (code : Nat) (body : Option RemoteResp)
  | httpError (code : Nat)
  | urlError
  | otherExn
deriving Repr, DecidableEq

/-- The distinct outcomes of Plugin._make_http_request, one per return site
of the source (lines 175..267). -/
inductive MhrOut
  | success (r : RemoteResp)
  | invalidToken
  | accessDenied
  | otherStatus (code : Nat) (body : Option RemoteResp)
  | httpDenied (code : Nat)
  | httpFailed (code : Nat)
  | connFailed
  | reqFailed
  | maxRetries
deriving Repr, DecidableEq

/-- One pass of the retry loop of Plugin._make_http_request.  i is the
attempt index (the loop variable), fuel the remaining iterations of
range(retry_count plus one).  A retryable failure continues while
i < retry_count and otherwise returns the error describing that failure;
HTTP 401 and 403 return without retrying; falling off the loop yields the
max-retries return at line 267.  The second output counts attempts made. -/
def mhrGo (att : Nat → Attempt) (retryCount : Nat) : Nat → Nat → MhrOut × Nat
  | 0, i => (.maxRetries, i)
  | fuel + 1, i =>
    let retryOr (final : MhrOut) : MhrOut × Nat :=
      if i < retryCount then mhrGo att retryCount fuel (i + 1) else (final, i + 1)
    match att i with
    | .response code body =>
      if code == 200 then
        match body with
        | some r => (.success r, i + 1)
        | none => retryOr .reqFailed
      else if code == 401 then (.invalidToken, i + 1)
      else if code == 403 then (.accessDenied, i + 1)
      else
        match body with
        | some r => (.otherStatus code (some r), i + 1)
        | none => retryOr .reqFailed
    | .httpError code =>
      if code == 401 || code == 403 then (.httpDenied code, i + 1)
      else retryOr (.httpFailed code)
    | .urlError => retryOr .connFailed
    | .otherExn => retryOr .reqFailed

/-- Plugin._make_http_request (lines 175..267): the retry loop run with the
configured retry_count.  The schema types retry_count as a non-negative
count (default 0), so the loop body runs at least once. -/
def make_http_request (att : Nat → Attempt) (retryCount : Nat) : MhrOut × Nat :=
  mhrGo att retryCount (retryCount + 1) 0

/-- Whether a make_http_request outcome is the (True, json) success
return. -/
def mhrSuccess : MhrOut → Option RemoteResp
  | .success r => some r
  | _ => none

/-- Plugin._call_auth_service (lines 118..173): build the payload, call
make_http_request, and on success require the authorized flag of the
response; every failure becomes (False, error body).  Only the decision
Bool matters to the access phase. -/
def call_auth_service (att : Nat → Attempt) (retryCount : Nat) : Bool :=
  match mhrSuccess (make_http_request att retryCount).1 with
  | none => false
  | some r => r.authorized

/-- The response the access phase of custom-auth-pre-function.py produces:
an early kong.response.exit with a status, or forwarding the request
upstream with identity headers set. -/
inductive AccessOut
  | exit (status : Nat)
  | forward (r : Option RemoteResp)
deriving Repr, DecidableEq

/-- The pre-function plugin configuration after schema defaults. -/
structure PreConfig where
  auth_service_url : Option String := none
  auth_service_timeout : Int := 10
  ssl_verify : Bool := false
  retry_count : Nat := 0
deriving Repr, DecidableEq

/-- Plugin.access of custom-auth-pre-function.py (lines 55..116): missing
configuration exits 500, a missing Authorization header exits 401, a
failed or denying auth-service call exits 403, and an authorizing response
forwards the request (with identity headers taken from the response). -/
def preAccess (cfg : PreConfig) (authHeader : Option String)
    (att : Nat → Attempt) : AccessOut :=
  match cfg.auth_service_url with
  | none => .exit 500
  | some url =>
    if url == "" then .exit 500
    else
      match authHeader with
      | none => .exit 401
      | some hdr =>
        if hdr == "" then .exit 401
        else
          if call_auth_service att cfg.retry_count then
            .forward (mhrSuccess (make_http_request att cfg.retry_count).1)
          else .exit 403

/-! ## Concurrent invocations of get_public_keys

The auth service handles each request on its own worker thread and
get_public_keys guards the shared globals with no lock; requests.get blocks
and releases the interpreter, so another worker can run between the cache
check and the cache write.  Each caller is therefore two atomic phases: the
cache check (line 46) and, on a miss, the fetch completion together with
the cache write (lines 55..78).  A schedule lists which caller steps
next. -/

/-- Where one concurrent get_public_keys caller stands: not yet run, between
the missed cache check and the fetch, done via the cache, or done having
fetched. -/
inductive CallerPhase
  | ready
  | fetching
  | doneHit
  | doneFetched
deriving Repr, DecidableEq

/-- The shared auth-service globals plus each caller's phase. -/
structure ConcState where
  shared : AuthCache
  phases : List CallerPhase
deriving Repr, DecidableEq

/-- One scheduled step of caller i: a ready caller runs the cache check of
get_public_keys against the current shared state; a fetching caller's
request completes successfully and the handler writes the cache as the
source does.  Other callers are unaffected. -/
def concStep (now : Int) (jwks : Jwks) (s : ConcState) (i : Nat) : ConcState :=
  match s.phases.get? i with
  | some .ready =>
    if authCacheHit s.shared now then { s with phases := s.phases.set i .doneHit }
    else { s with phases := s.phases.set i .fetching }
  | some .fetching =>
    let shared' :=
      match buildKeys ([] : List (String × PublicKey)) jwks.keys with
      | none => s.shared
      | some keys => { cache := keys, expiry := some (now + 3600) : AuthCache }
    { shared := shared', phases := s.phases.set i .doneFetched }
  | _ => s

/-- Run a schedule of caller steps from a state. -/
def concRun (now : Int) (jwks : Jwks) (s : ConcState) (sched : List Nat) : ConcState :=
  sched.foldl (concStep now jwks) s

/-- How many callers performed their own network fetch. -/
def fetchCount (s : ConcState) : Nat :=
  (s.phases.filter (fun p => p == .doneFetched)).length

/-! ## Concrete fixtures

A small RSA public key (n 3233, e 17) whose JWK components are the
base64url strings DKE (bytes 12, 161) and EQ (byte 17). -/

/-- A concrete reconstructed public key. -/
def pkW : PublicKey := { n := 3233, e := 17 }

/-- A JWK carrying pkW under kid k1. -/
def jwkW : JwkKey :=
  { kid := some "k1", kty := some "RSA", use := some "sig",
    alg := some "RS256", n := some "DKE", e := some "EQ" }

/-- A JWKS response holding just jwkW. -/
def jwksW : Jwks := { keys := [jwkW] }

/-- A concrete custom-jwt-auth plugin configuration. -/
def cfgW : PluginConfig :=
  { keycloak_base_url := "https://keycloak.example.com", keycloak_realm := "kong",
    expected_issuer := "https://keycloak.example.com/realms/kong",
    expected_audience := "account" }

/-- A warm auth-service cache holding pkW under kid k1. -/
def stW : AuthCache := { cache := [("k1", pkW)], expiry := some 1000000 }

/-- A payload whose iss differs from the expected issuer but is otherwise
valid at time 500: audience account, unexpired, roles present. -/
def badIssuerPayload : Payload :=
  { sub := some "user-1", iss := some "https://attacker.example/realms/evil",
    aud := some ["account"], exp := some 2000, iat := some 10,
    realmRoles := some ["offline_access"] }

/-- A token carrying badIssuerPayload under kid k1, with a signature valid
for pkW. -/
def badIssuerToken : Token :=
  .parsed { kid := some "k1", alg := some "RS256", typ := some "JWT" }
    badIssuerPayload (fun k => k == pkW)

/-! ## Claims -/

/-- C1 (code bug): a token whose iss claim differs from the configured
expected issuer is accepted by the auth-service verify_jwt_token — the
issuer keyword of the jwt.decode call at app.py line 153 is commented out,
although expected_issuer is defined just above and a dead
InvalidIssuerError handler remains.  The verifier returns the claims object
for a wrong-issuer token whose other checks pass, and its signature was in
fact verified (third conjunct). -/
theorem verify_jwt_token_accepts_wrong_issuer :
    badIssuerPayload.iss ≠ some expected_issuer
    ∧ (verify_jwt_token stW 500 .failed badIssuerToken).1 = some badIssuerPayload
    ∧ (verify_jwt_token stW 500 .failed badIssuerToken).2.2.2 = true := by
  refine ⟨by decide, rfl, rfl⟩

/-- C7 counterexample: the claim reads each path rule independently, but a
path containing both /orders and /inventory is routed by the code through
the orders branch, so a GET on such a path by an authenticated caller is
not always allowed: here the caller holds the uma_authorization role, the
path matches /inventory, and the request is denied for want of
offline_access. -/
theorem inventory_get_not_always_allowed :
    pyIn "/inventory" "/inventory/orders" = true
    ∧ is_authorized { realmRoles := some ["uma_authorization"] }
        "/inventory/orders" "GET" = false := by
  refine ⟨rfl, rfl⟩

/-- C7 (amended): the authorization policy as the code evaluates it, with
the orders rule taking precedence: for a path matching /orders the method
table of the orders branch applies; for a path matching /inventory and not
/orders, GET is always allowed and mutating methods require
uma_authorization; a path matching neither is allowed for any method iff
the role set is non-empty. -/
theorem is_authorized_policy (p : Payload) (path : String) :
    (pyIn "/orders" path = true →
      is_authorized p path "GET" = (p.realmRoles.getD []).contains "offline_access"
      ∧ is_authorized p path "POST" = (p.realmRoles.getD []).contains "uma_authorization"
      ∧ is_authorized p path "PUT" = (p.realmRoles.getD []).contains "default-roles-kong"
      ∧ is_authorized p path "DELETE" = (p.realmRoles.getD []).contains "default-roles-kong")
    ∧ (pyIn "/orders" path = false → pyIn "/inventory" path = true →
      is_authorized p path "GET" = true
      ∧ ∀ m, (m = "PUT" ∨ m = "POST" ∨ m = "DELETE") →
          is_authorized p path m = (p.realmRoles.getD []).contains "uma_authorization")
    ∧ (pyIn "/orders" path = false → pyIn "/inventory" path = false →
      ∀ m, is_authorized p path m = decide (0 < (p.realmRoles.getD []).length)) := by
  refine ⟨fun h1 => ?_, fun h1 h2 => ?_, fun h1 h2 m => ?_⟩
  · simp [is_authorized, h1]
  · refine ⟨by simp [is_authorized, h1, h2], fun m hm => ?_⟩
    rcases hm with rfl | rfl | rfl <;> simp [is_authorized, h1, h2]
  · simp [is_authorized, h1, h2]

/-- C7 witness: the amended policy applied to a GET on /orders with the
offline_access role, which the orders branch allows. -/
theorem is_authorized_policy_witness :
    is_authorized { realmRoles := some ["offline_access"] } "/orders" "GET" = true := by
  have h := (is_authorized_policy { realmRoles := some ["offline_access"] } "/orders").1 (by decide)
  rw [h.1]
  decide

/-- A plugin cache holding a previously fetched JWKS whose shared expiry
has passed. -/
def staleStW : PluginCache :=
  { jwks_cache := [("https://keycloak.example.com/kong", jwksW)], cache_expiry := 100 }

/-- C4 counterexample: the claim asserts that a failed refresh serves the
stale KeySet when one exists, but the gateway plugin returns a hard fetch
error although a previously fetched JWKS containing the requested kid sits
in its cache: the expired entry is never consulted after a fetch
failure. -/
theorem plugin_no_stale_serve :
    lookupJwks staleStW.jwks_cache (pluginCacheKey cfgW) = some jwksW
    ∧ jwksW.keys.find? (fun k => k.kid == some "k1") = some jwkW
    ∧ get_public_key_from_jwks cfgW staleStW 200 .requestFailed "k1"
        = (.error .fetchRequestFailed, staleStW, true) := by
  refine ⟨rfl, rfl, rfl⟩

/-- C4 (amended): on a key-set refresh failure the auth service returns the
previous cached key map unchanged (stale-serve, possibly empty) after
attempting the fetch, and with no previous KeySet every token is
unverifiable because each kid lookup misses the empty map; the gateway
plugin instead returns a hard fetch error whenever its cache cannot serve
the request, whether or not a stale JWKS entry exists. -/
theorem fetch_failure_policy :
    (∀ (st : AuthCache) (now : Int), authCacheHit st now = false →
        get_public_keys st now .failed = (st.cache, st, true))
    ∧ (∀ (now : Int) (h : Header) (p : Payload) (sigOk : PublicKey → Bool),
        (verify_jwt_token { cache := ([] : List (String × PublicKey)), expiry := none }
          now .failed (.parsed h p sigOk)).1 = none)
    ∧ (∀ (cfg : PluginConfig) (st : PluginCache) (now : Int) (kid : String),
        (match lookupJwks st.jwks_cache (pluginCacheKey cfg) with
         | some _ => st.cache_expiry ≤ now
         | none => True) →
        get_public_key_from_jwks cfg st now .requestFailed kid
          = (.error .fetchRequestFailed, st, true)) := by
  refine ⟨fun st now hmiss => ?_, fun now h p sigOk => ?_, fun cfg st now kid hc => ?_⟩
  · simp [get_public_keys, hmiss]
  · cases hk : h.kid with
    | none => simp [verify_jwt_token, hk]
    | some kid =>
      by_cases hempty : kid = ""
      · simp [verify_jwt_token, hk, hempty]
      · simp [verify_jwt_token, hk, hempty, get_public_keys, authCacheHit, lookupKey]
  · cases hl : lookupJwks st.jwks_cache (pluginCacheKey cfg) with
    | none => simp [get_public_key_from_jwks, pluginGetJwks, hl]
    | some j =>
      rw [hl] at hc
      simp [get_public_key_from_jwks, pluginGetJwks, hl, not_lt.mpr hc]

/-- C4 witness: an expired non-empty auth-service cache is served stale
after a failed refresh attempt. -/
theorem fetch_failure_policy_witness :
    get_public_keys { cache := [("k1", pkW)], expiry := some 100 } 200 .failed
      = ([("k1", pkW)], { cache := [("k1", pkW)], expiry := some 100 }, true) :=
  fetch_failure_policy.1 { cache := [("k1", pkW)], expiry := some 100 } 200 rfl

/-- C5 counterexample: after a first successful fetch whose key set comes
out empty (a JWKS with no usable key), the auth service holds a cached
KeySet created at time 0 with TTL 3600, yet a second call at time 10 —
inside the TTL window — issues a second network fetch, because the
cache-hit test also requires a non-empty key dict.  Two consecutive calls
within the TTL thus perform two network fetches, not one. -/
theorem empty_keyset_refetched_within_ttl :
    get_public_keys { } 0 (.ok { keys := [] })
      = (([] : List (String × PublicKey)),
         { cache := ([] : List (String × PublicKey)), expiry := some 3600 }, true)
    ∧ (get_public_keys { cache := ([] : List (String × PublicKey)), expiry := some 3600 }
        10 (.ok { keys := [] })).2.2 = true := by
  refine ⟨rfl, rfl⟩

/-- C5 (amended): the TTL cache-hit property holds whenever the cached key
set is non-empty.  First conjunct: a non-empty auth-service cache inside
its expiry window is returned unchanged with no network call, for any
pending fetch outcome.  Second conjunct: from a cold cache, a first call
that fetches a non-empty key set followed by a second call within 3600
seconds performs exactly one fetch (the first fetches, the second does
not).  Third conjunct: the plugin serves any cached JWKS entry before the
shared expiry with no network call, empty or not. -/
theorem ttl_cache_hit :
    (∀ (st : AuthCache) (now e : Int) (fetch : FetchOutcome),
        st.expiry = some e → e ≠ 0 → now < e →
        st.cache ≠ ([] : List (String × PublicKey)) →
        get_public_keys st now fetch = (st.cache, st, false))
    ∧ (∀ (now1 now2 : Int) (jwks : Jwks) (f2 : FetchOutcome),
        (get_public_keys { } now1 (.ok jwks)).1 ≠ ([] : List (String × PublicKey)) →
        now1 + 3600 ≠ 0 → now2 < now1 + 3600 →
        (get_public_keys { } now1 (.ok jwks)).2.2 = true
        ∧ (get_public_keys ((get_public_keys { } now1 (.ok jwks)).2.1) now2 f2).2.2
            = false)
    ∧ (∀ (cfg : PluginConfig) (st : PluginCache) (now : Int) (fetch : PluginFetch)
        (j : Jwks),
        lookupJwks st.jwks_cache (pluginCacheKey cfg) = some j →
        now < st.cache_expiry →
        pluginGetJwks cfg st now fetch = .ok (j, st, false)) := by
  refine ⟨fun st now e fetch hexp hez hlt hne => ?_,
    fun now1 now2 jwks f2 hne hez hlt => ?_,
    fun cfg st now fetch j hl hlt => ?_⟩
  · have hhit : authCacheHit st now = true := by
      cases hc : st.cache with
      | nil => exact absurd hc hne
      | cons a t => simp [authCacheHit, hexp, hez, hlt, hc]
    simp [get_public_keys, hhit]
  · have hcold : authCacheHit { } now1 = false := rfl
    cases hb : buildKeys ([] : List (String × PublicKey)) jwks.keys with
    | none =>
      exfalso
      apply hne
      simp [get_public_keys, hcold, hb]
    | some keys =>
      have hkeys : keys ≠ ([] : List (String × PublicKey)) := by
        intro hnil
        apply hne
        simp [get_public_keys, hcold, hb, hnil]
      refine ⟨by simp [get_public_keys, hcold, hb], ?_⟩
      have hst : (get_public_keys { } now1 (.ok jwks)).2.1
          = { cache := keys, expiry := some (now1 + 3600) } := by
        simp [get_public_keys, hcold, hb]
      rw [hst]
      have hhit : authCacheHit { cache := keys, expiry := some (now1 + 3600) } now2 = true := by
        cases hc : keys with
        | nil => exact absurd hc hkeys
        | cons a t => simp [authCacheHit, hez, hlt, hc]
      simp [get_public_keys, hhit]
  · simp [pluginGetJwks, hl, hlt]

/-- C5 witness: a warm non-empty auth-service cache inside the TTL window
is served with no fetch. -/
theorem ttl_cache_hit_witness :
    get_public_keys { cache := [("k1", pkW)], expiry := some 3600 } 10 .failed
      = ([("k1", pkW)], { cache := [("k1", pkW)], expiry := some 3600 }, false) :=
  ttl_cache_hit.1 { cache := [("k1", pkW)], expiry := some 3600 } 10 3600 .failed
    rfl (by decide) (by decide) (by decide)

/-- Whether one retry-loop iteration observing this attempt outcome reaches
the retry path (neither a success, nor an in-body return, nor a 401/403
denial). -/
def retryableAttempt : Attempt → Bool
  | .response code body => body == none && code != 401 && code != 403
  | .httpError code => code != 401 && code != 403
  | .urlError => true
  | .otherExn => true

/-- The error a retryable attempt outcome produces once the budget is
exhausted, per return site of the source. -/
def attemptFinal : Attempt → MhrOut
  | .response _ _ => .reqFailed
  | .httpError code => .httpFailed code
  | .urlError => .connFailed
  | .otherExn => .reqFailed

/-- One retry-loop iteration on a retryable attempt either recurses (while
the attempt index is below retry_count) or returns that attempt's final
error. -/
theorem mhrGo_step_retryable (att : Nat → Attempt) (rc n i : Nat)
    (hr : retryableAttempt (att i) = true) :
    mhrGo att rc (n + 1) i
      = if i < rc then mhrGo att rc n (i + 1) else (attemptFinal (att i), i + 1) := by
  cases ha : att i with
  | response code body =>
    simp only [retryableAttempt, ha, Bool.and_eq_true, bne_iff_ne, ne_eq,
      beq_iff_eq] at hr
    obtain ⟨⟨hb, h401⟩, h403⟩ := hr
    subst hb
    by_cases h200 : code = 200 <;>
      simp [mhrGo, ha, h200, h401, h403, attemptFinal]
  | httpError code =>
    simp only [retryableAttempt, ha, Bool.and_eq_true, bne_iff_ne, ne_eq] at hr
    obtain ⟨h401, h403⟩ := hr
    simp [mhrGo, ha, h401, h403, attemptFinal]
  | urlError => simp [mhrGo, ha, attemptFinal]
  | otherExn => simp [mhrGo, ha, attemptFinal]

/-- When every attempt up to index retry_count is retryable, the loop runs
through its whole budget and returns the final error of the last
attempt. -/
theorem mhrGo_exhausts (att : Nat → Attempt) (rc : Nat) :
    ∀ (fuel i : Nat), i + fuel = rc + 1 → 0 < fuel →
      (∀ k, k ≤ rc → retryableAttempt (att k) = true) →
      mhrGo att rc fuel i = (attemptFinal (att rc), rc + 1) := by
  intro fuel
  induction fuel with
  | zero => intro i _ hpos _; omega
  | succ n ih =>
    intro i hsum _ hall
    rw [mhrGo_step_retryable att rc n i (hall i (by omega))]
    by_cases hlt : i < rc
    · rw [if_pos hlt]
      exact ih (i + 1) (by omega) (by omega) hall
    · rw [if_neg hlt]
      have hi : i = rc := by omega
      subst hi
      rfl

/-- C6 counterexample: with retry_count 0, an HTTP 500 attempt exhausts the
budget and the call returns the error reporting that last HTTP failure —
not the distinct max-retries-exceeded error of the post-loop return, which
is unreachable for any configured retry count. -/
theorem retry_exhaustion_not_max_retries :
    make_http_request (fun _ => .httpError 500) 0 = (.httpFailed 500, 1)
    ∧ MhrOut.httpFailed 500 ≠ MhrOut.maxRetries := by
  refine ⟨rfl, by decide⟩

/-- C6 (amended): an attempt answered HTTP 401 or 403 returns a denial
after exactly one attempt, for every configured retry_count; when every
attempt fails retryably (transport failure or a non-auth HTTP error), the
call makes exactly retry_count plus one attempts and returns the error
describing the last attempt's failure — which is never the literal
max-retries return of line 267. -/
theorem make_http_request_retry_policy (rc : Nat) (att : Nat → Attempt) :
    (∀ code, (code = 401 ∨ code = 403) → att 0 = .httpError code →
        make_http_request att rc = (.httpDenied code, 1))
    ∧ ((∀ k, k ≤ rc → retryableAttempt (att k) = true) →
        make_http_request att rc = (attemptFinal (att rc), rc + 1)
        ∧ attemptFinal (att rc) ≠ .maxRetries) := by
  constructor
  · intro code hcode ha
    rcases hcode with rfl | rfl <;> simp [make_http_request, mhrGo, ha]
  · intro hall
    refine ⟨mhrGo_exhausts att rc (rc + 1) 0 (by omega) (by omega) hall, ?_⟩
    cases att rc <;> simp [attemptFinal]

/-- C6 witness: three straight connection failures with retry_count 2
exhaust the budget after three attempts and report the connection
error. -/
theorem make_http_request_retry_policy_witness :
    make_http_request (fun _ => .urlError) 2 = (.connFailed, 3) :=
  ((make_http_request_retry_policy 2 (fun _ => .urlError)).2 (fun _ _ => rfl)).1

/-- A concrete pre-function plugin configuration (defaults: timeout 10, no
ssl verification, retry_count 0). -/
def preCfgW : PreConfig := { auth_service_url := some "http://auth-service:8003" }

/-- C8 counterexample: a connection failure toward the auth service, with
the default retry budget of zero already exhausted, makes the plugin exit
403 Access denied — not a 502/500-class error. -/
theorem transport_failure_yields_403 :
    preAccess preCfgW (some "Bearer abc") (fun _ => .urlError) = .exit 403
    ∧ AccessOut.exit 403 ≠ AccessOut.exit 502
    ∧ AccessOut.exit 403 ≠ AccessOut.exit 500 := by
  refine ⟨rfl, by decide, by decide⟩

/-- C8 (amended): when the remote verification call fails for transport
reasons on every attempt and the retry budget is exhausted, the access
phase surfaces the same 403 Access denied exit as an authorization denial
(its only checks are the success flag and the authorized field); a 500 is
produced only for missing configuration or an unexpected exception. -/
theorem transport_failure_gives_access_denied (cfg : PreConfig) (url hdr : String)
    (att : Nat → Attempt) (hurl : cfg.auth_service_url = some url) (hne : url ≠ "")
    (hhdr : hdr ≠ "")
    (hall : ∀ k, k ≤ cfg.retry_count → retryableAttempt (att k) = true) :
    preAccess cfg (some hdr) att = .exit 403 := by
  have hmake : make_http_request att cfg.retry_count
      = (attemptFinal (att cfg.retry_count), cfg.retry_count + 1) :=
    mhrGo_exhausts att cfg.retry_count (cfg.retry_count + 1) 0 (by omega) (by omega) hall
  have hsucc : mhrSuccess (attemptFinal (att cfg.retry_count)) = none := by
    cases att cfg.retry_count <;> simp [attemptFinal, mhrSuccess]
  simp [preAccess, hurl, hne, hhdr, call_auth_service, hmake, hsucc]

/-- C8 witness: repeated unexpected request errors with retry_count 2 end
in a 403 exit. -/
theorem transport_failure_gives_access_denied_witness :
    preAccess { auth_service_url := some "http://auth-service.default:8003",
                retry_count := 2 }
      (some "Bearer xyz") (fun _ => .otherExn) = .exit 403 :=
  transport_failure_gives_access_denied
    { auth_service_url := some "http://auth-service.default:8003", retry_count := 2 }
    "http://auth-service.default:8003" "Bearer xyz" (fun _ => .otherExn)
    rfl (by decide) (by decide) (fun _ _ => rfl)

/-- A two-caller start state on a cold auth-service cache. -/
def concCold : ConcState :=
  { shared := { cache := ([] : List (String × PublicKey)), expiry := none },
    phases := [.ready, .ready] }

/-- C9 counterexample: two concurrent get_public_keys callers on a cold
cache, interleaved so both run the cache check before either fetch
completes (the fetch blocks without holding any lock), perform two network
fetches — not the exactly-one the claim asserts. -/
theorem stampede_two_fetches :
    fetchCount (concRun 0 jwksW concCold [0, 1, 0, 1]) = 2
    ∧ (2 : Nat) ≠ 1 := by
  refine ⟨rfl, by decide⟩

/-- One scheduled step never changes how many callers there are. -/
theorem concStep_phases_length (now : Int) (jwks : Jwks) (s : ConcState) (i : Nat) :
    (concStep now jwks s i).phases.length = s.phases.length := by
  unfold concStep
  cases h : s.phases.get? i with
  | none => rfl
  | some ph =>
    cases ph <;> (simp [List.length_set]; try (split <;> simp [List.length_set]))

/-- Running a schedule never changes how many callers there are. -/
theorem concRun_phases_length (now : Int) (jwks : Jwks) :
    ∀ (sched : List Nat) (s : ConcState),
      (concRun now jwks s sched).phases.length = s.phases.length := by
  intro sched
  induction sched with
  | nil => intro s; rfl
  | cons a t ih =>
    intro s
    have hstep : concRun now jwks s (a :: t)
        = concRun now jwks (concStep now jwks s a) t := rfl
    rw [hstep, ih, concStep_phases_length]

/-- C9 (amended): get_public_keys takes no lock, so refreshes are not
serialized: each caller that observes a cold cache fetches for itself.
Under any schedule the number of fetches is at most the number of callers,
the check-check-fetch-fetch interleaving of two cold-cache callers
performs two fetches, and the serialized schedule — where the second
caller checks only after the first has written the cache — performs
one. -/
theorem concurrent_fetch_bound :
    (∀ (now : Int) (jwks : Jwks) (s : ConcState) (sched : List Nat),
        fetchCount (concRun now jwks s sched) ≤ s.phases.length)
    ∧ fetchCount (concRun 0 jwksW concCold [0, 1, 0, 1]) = 2
    ∧ fetchCount (concRun 0 jwksW concCold [0, 0, 1, 1]) = 1 := by
  refine ⟨fun now jwks s sched => ?_, rfl, rfl⟩
  calc fetchCount (concRun now jwks s sched)
      ≤ (concRun now jwks s sched).phases.length :=
        List.length_filter_le _ _
    _ = s.phases.length := concRun_phases_length now jwks sched s

/-- C10: for any method outside GET, POST, PUT and DELETE, a request to a
path matching /orders or /inventory falls through both method tables of
is_authorized to the default rule: it is authorized iff the role set is
non-empty. -/
theorem unhandled_method_defaults (p : Payload) (path m : String)
    (hget : m ≠ "GET") (hpost : m ≠ "POST") (hput : m ≠ "PUT") (hdel : m ≠ "DELETE")
    (_hpath : pyIn "/orders" path = true ∨ pyIn "/inventory" path = true) :
    is_authorized p path m = decide (0 < (p.realmRoles.getD []).length) := by
  by_cases h1 : pyIn "/orders" path <;> by_cases h2 : pyIn "/inventory" path <;>
    simp [is_authorized, h1, h2, hget, hpost, hput, hdel]

/-- C2: a parsed token whose header alg is present and differs from RS256
is rejected before anything else happens.  The plugin returns its
Unsupported algorithm error with the cache untouched, no JWKS fetch issued
and no signature verification performed, for every signature predicate; the
auth service likewise returns None without a signature check (pyjwt
restricts the algorithms allowlist to RS256 before verifying). -/
theorem non_rs256_rejected (a : String) (hne : a ≠ "RS256") :
    (∀ (cfg : PluginConfig) (st : PluginCache) (now : Int) (fetch : PluginFetch)
        (h : Header) (p : Payload) (sigOk : PublicKey → Bool), h.alg = some a →
        validate_jwt cfg st now fetch (.parsed h p sigOk)
          = (.error (.unsupportedAlgorithm a), st, false, false))
    ∧ (∀ (st : AuthCache) (now : Int) (fetch : FetchOutcome)
        (h : Header) (p : Payload) (sigOk : PublicKey → Bool), h.alg = some a →
        (verify_jwt_token st now fetch (.parsed h p sigOk)).1 = none
        ∧ (verify_jwt_token st now fetch (.parsed h p sigOk)).2.2.2 = false) := by
  constructor
  · intro cfg st now fetch h p sigOk halg
    simp [validate_jwt, halg, hne]
  · intro st now fetch h p sigOk halg
    cases hk : h.kid with
    | none => simp [verify_jwt_token, hk]
    | some kid =>
      by_cases hempty : kid = ""
      · simp [verify_jwt_token, hk, hempty]
      · cases hl : lookupKey (get_public_keys st now fetch).1 kid with
        | none => simp [verify_jwt_token, hk, hempty, hl]
        | some pk => simp [verify_jwt_token, hk, hempty, hl, pyjwt_decode, halg, hne]

/-- C2 witness: a token presented with alg HS256 and a known kid is
rejected by the plugin as Unsupported algorithm with no fetch and no
signature check. -/
theorem non_rs256_rejected_witness :
    validate_jwt cfgW { } 0 .requestFailed
      (.parsed { kid := some "k1", alg := some "HS256" } { } (fun _ => true))
      = (.error (.unsupportedAlgorithm "HS256"), { }, false, false) :=
  (non_rs256_rejected "HS256" (by decide)).1 cfgW { } 0 .requestFailed
    { kid := some "k1", alg := some "HS256" } { } (fun _ => true) rfl

/-- The JWKS the plugin key lookup consults: the cached entry on a cache
hit, else the freshly fetched body; none when the fetch fails with no
usable cache entry. -/
def pluginJwksUsed (cfg : PluginConfig) (st : PluginCache) (now : Int)
    (fetch : PluginFetch) : Option Jwks :=
  match pluginGetJwks cfg st now fetch with
  | .ok r => some r.1
  | .error _ => none

/-- C3: a token passing the header checks whose kid is absent from the key
set actually consulted (cached or just fetched, stale or fresh) yields the
Key not found error in the plugin and None in the auth service, and in
both cases no signature verification is performed — such a token can never
produce an Invalid signature outcome. -/
theorem unknown_kid_key_not_found (kid : String) (hk : kid ≠ "") :
    (∀ (cfg : PluginConfig) (st : PluginCache) (now : Int) (fetch : PluginFetch)
        (h : Header) (p : Payload) (sigOk : PublicKey → Bool) (j : Jwks),
        h.alg.getD "RS256" = "RS256" → h.kid = some kid →
        pluginJwksUsed cfg st now fetch = some j →
        j.keys.find? (fun k => k.kid == some kid) = none →
        (validate_jwt cfg st now fetch (.parsed h p sigOk)).1
          = .error (.keyLookup (.keyNotFound kid))
        ∧ (validate_jwt cfg st now fetch (.parsed h p sigOk)).2.2.2 = false)
    ∧ (∀ (st : AuthCache) (now : Int) (fetch : FetchOutcome)
        (h : Header) (p : Payload) (sigOk : PublicKey → Bool),
        h.kid = some kid →
        lookupKey (get_public_keys st now fetch).1 kid = none →
        (verify_jwt_token st now fetch (.parsed h p sigOk)).1 = none
        ∧ (verify_jwt_token st now fetch (.parsed h p sigOk)).2.2.2 = false) := by
  constructor
  · intro cfg st now fetch h p sigOk j halg hkid hused hfind
    cases hpg : pluginGetJwks cfg st now fetch with
    | error e => simp [pluginJwksUsed, hpg] at hused
    | ok r =>
      have hj : r.1 = j := by simpa [pluginJwksUsed, hpg] using hused
      subst hj
      simp [validate_jwt, halg, hkid, hk, get_public_key_from_jwks, hpg, hfind]
  · intro st now fetch h p sigOk hkid hl
    simp [verify_jwt_token, hkid, hk, hl]

/-- C3 witness: a token naming an unknown kid against a warm plugin cache
is rejected as Key not found. -/
theorem unknown_kid_key_not_found_witness :
    (validate_jwt cfgW
        { jwks_cache := [("https://keycloak.example.com/kong", jwksW)],
          cache_expiry := 50 } 10 .requestFailed
        (.parsed { kid := some "nope", alg := some "RS256" } { } (fun _ => true))).1
      = .error (.keyLookup (.keyNotFound "nope")) := by
  have h := (unknown_kid_key_not_found "nope" (by decide)).1 cfgW
    { jwks_cache := [("https://keycloak.example.com/kong", jwksW)],
      cache_expiry := 50 } 10 .requestFailed
    { kid := some "nope", alg := some "RS256" } { } (fun _ => true) jwksW
    rfl rfl rfl rfl
  exact h.1

/-- C10 witness: a PATCH to the orders path by a caller with one role is
authorized by the default rule. -/
theorem unhandled_method_defaults_witness :
    is_authorized { realmRoles := some ["uma_authorization"] }
      "/api/custom/orders" "PATCH" = true := by
  have h := unhandled_method_defaults { realmRoles := some ["uma_authorization"] }
    "/api/custom/orders" "PATCH" (by decide) (by decide) (by decide) (by decide)
    (Or.inl (by decide))
  rw [h]
  decide

end KongPoc
